import Mathlib

/-!
Verification development for the Bondifuzz base-agent core:
a shallow embedding of the websocket exec transport (`app/kubernetes/ws_client.py`),
the exec-command exit-code disambiguation (`app/kubernetes/manager.py`),
the error taxonomy (`app/errors/errors.py`) and the run orchestrator skeleton
(`app/entry.py`), together with theorems about their behaviour.
-/

/-! ## Python string primitives used by the sources -/

/-- Whitespace characters recognised by Python `str.strip()` (ASCII part). -/
def pyIsSpace (c : Char) : Bool :=
  c = ' ' || c = '\t' || c = '\n' || c = '\r' || c = Char.ofNat 11 || c = Char.ofNat 12

/-- Python `str.strip()`: remove leading and trailing whitespace. -/
def pyStrip (s : String) : String :=
  String.mk (((s.toList.dropWhile pyIsSpace).reverse.dropWhile pyIsSpace).reverse)

/-- Python `str.lower()` (ASCII letters): lower-case every character. -/
def pyLower (s : String) : String :=
  String.mk (s.toList.map Char.toLower)

/-- Value of the remaining digits of a Python base-10 integer literal:
digits, with a single underscore allowed only between two digits. -/
def pyDigitsCore : Nat → List Char → Option Nat
  | acc, [] => some acc
  | acc, c :: rest =>
    if c.isDigit then pyDigitsCore (acc * 10 + (c.toNat - 48)) rest
    else if c = '_' then
      match rest with
      | [] => none
      | d :: rest2 =>
        if d.isDigit then pyDigitsCore (acc * 10 + (d.toNat - 48)) rest2 else none
    else none

/-- Digit part of a Python base-10 integer literal: nonempty, must start with a digit. -/
def pyDigits : List Char → Option Nat
  | [] => none
  | c :: rest => if c.isDigit then pyDigitsCore (c.toNat - 48) rest else none

/-- Python `int(s)` for base 10: optional surrounding whitespace, optional sign,
then digits (underscores allowed between digits); `none` models `ValueError`. -/
def pyInt (s : String) : Option Int :=
  match (pyStrip s).toList with
  | '+' :: rest => (pyDigits rest).map Int.ofNat
  | '-' :: rest => (pyDigits rest).map (fun n => -(Int.ofNat n))
  | t => (pyDigits t).map Int.ofNat

/-! ## Dictionary operations (Python `dict` with unique keys, as an assoc list) -/

/-- Python `d.get(k, default=None)`. -/
def dict_get {κ β : Type} [DecidableEq κ] : List (κ × β) → κ → Option β
  | [], _ => none
  | (k, v) :: rest, key => if k = key then some v else dict_get rest key

/-- Removal of a key, as done by Python `d.pop(k, default)`. -/
def dict_remove {κ β : Type} [DecidableEq κ] : List (κ × β) → κ → List (κ × β)
  | [], _ => []
  | (k, v) :: rest, key => if k = key then rest else (k, v) :: dict_remove rest key

/-- `d[k] = d[k] + s` when `k` is present, `d[k] = s` otherwise
(ws_client.py lines 117-120). -/
def dict_append_str : List (Nat × String) → Nat → String → List (Nat × String)
  | [], key, s => [(key, s)]
  | (k, v) :: rest, key, s =>
    if k = key then (k, v ++ s) :: rest else (k, v) :: dict_append_str rest key s

/-! ## Channel transport (`app/kubernetes/ws_client.py`) -/

def STDIN_CHANNEL : Nat := 0
def STDOUT_CHANNEL : Nat := 1
def STDERR_CHANNEL : Nat := 2
def ERROR_CHANNEL : Nat := 3
def RESIZE_CHANNEL : Nat := 4

/-- State of an `ExecWSClient` session: the connected flag, the per-channel
buffers (`_channels`), the stream-enable flags and the memoized return code. -/
structure ExecWSClient where
  connected : Bool
  channels : List (Nat × String)
  stdout : Bool
  stderr : Bool
  combine_output : Bool
  returncodeCache : Option Int
deriving DecidableEq

/-- `ExecWSClient.__init__` (ws_client.py lines 24-45).  The stream-flag fixup
is the source's `if not stdout or not stderr and combine_output:` which, by
Python precedence, is `(not stdout) or ((not stderr) and combine_output)`. -/
def ExecWSClient.init (stdout stderr combine_output : Bool) : ExecWSClient :=
  let fix : Bool := (!stdout) || ((!stderr) && combine_output)
  { connected := true
    channels := []
    stdout := if fix then true else stdout
    stderr := if fix then true else stderr
    combine_output := combine_output
    returncodeCache := none }

/-- `peek_channel(channel, default)`: non-destructive buffer read. -/
def ExecWSClient.peek_channel (s : ExecWSClient) (channel : Nat)
    (default : Option String) : Option String :=
  match dict_get s.channels channel with
  | some v => some v
  | none => default

/-- `read_channel(channel, default)`: destructive buffer read, returning the
value and the updated session. -/
def ExecWSClient.read_channel (s : ExecWSClient) (channel : Nat)
    (default : Option String) : Option String × ExecWSClient :=
  match dict_get s.channels channel with
  | some v => (some v, { s with channels := dict_remove s.channels channel })
  | none => (default, s)

/-- `peek_stdout` (ws_client.py line 63: the source reads `STDERR_CHANNEL`
although its docstring says channel 1). -/
def ExecWSClient.peek_stdout (s : ExecWSClient) (default : Option String) : Option String :=
  s.peek_channel STDERR_CHANNEL default

/-- `read_stdout` (ws_client.py line 67). -/
def ExecWSClient.read_stdout (s : ExecWSClient) (default : Option String) :
    Option String × ExecWSClient :=
  s.read_channel STDOUT_CHANNEL default

/-- `peek_stderr` (ws_client.py line 71). -/
def ExecWSClient.peek_stderr (s : ExecWSClient) (default : Option String) : Option String :=
  s.peek_channel STDERR_CHANNEL default

/-- `read_stderr` (ws_client.py line 75). -/
def ExecWSClient.read_stderr (s : ExecWSClient) (default : Option String) :
    Option String × ExecWSClient :=
  s.read_channel STDERR_CHANNEL default

/-- `is_open()`. -/
def ExecWSClient.is_open (s : ExecWSClient) : Bool :=
  s.connected

/-- One websocket event observed by `update`: a close frame, a text/binary
frame (already utf-8 decoded), a receive timeout, or another message type. -/
inductive WSMsg where
  | close
  | frame (payload : String)
  | timedOut
  | otherMsg
deriving DecidableEq

/-- Code point of the first character of a string (`ord(data[0])`). -/
def headOrd (s : String) : Nat :=
  match s.toList with
  | [] => 0
  | c :: _ => c.toNat

/-- `update(timeout)` (ws_client.py lines 85-123): consume at most one event.
`sockClosed` models `self.sock.closed`.  A frame is decoded only when
`len(data) > 2`; its leading byte names the channel; disabled stdout/stderr
frames are dropped; with `combine_output` a stderr frame is appended to the
stdout buffer. -/
def ExecWSClient.update (s : ExecWSClient) (timeout : Int) (sockClosed : Bool)
    (msg : WSMsg) : ExecWSClient :=
  if !s.is_open then s
  else if sockClosed then { s with connected := false }
  else if timeout ≤ 0 then s
  else
    match msg with
    | .close => { s with connected := false }
    | .frame payload =>
      if payload.length > 2 then
        let channel := headOrd payload
        let data := payload.drop 1
        if (channel != STDOUT_CHANNEL && channel != STDERR_CHANNEL)
            || (channel == STDOUT_CHANNEL && s.stdout)
            || (channel == STDERR_CHANNEL && s.stderr) then
          let channel := if channel == STDERR_CHANNEL && s.combine_output
            then STDOUT_CHANNEL else channel
          { s with channels := dict_append_str s.channels channel data }
        else s
      else s
    | .timedOut => s
    | .otherMsg => s

/-- The structured status document carried on the error channel
(`yaml.safe_load` of the payload): its `status` field and the `message`
fields of `details.causes`. -/
structure V1StatusDoc where
  status : String
  causeMessages : List String

/-- Python exceptions escaping `returncode`. -/
inductive PyExn where
  | apiException (status : Nat) (reason : String)
  | lookupError
  | valueError
deriving DecidableEq

/-- `returncode` (ws_client.py lines 136-154): `none` while open; after close,
resolved once from the error-channel payload (`parse` stands for
`yaml.safe_load`): status `"Success"` gives 0, otherwise the integer parsed
from the first cause message; no payload raises `ApiException(500)`. -/
def ExecWSClient.returncode (parse : String → V1StatusDoc) (s : ExecWSClient) :
    Except PyExn (Option Int × ExecWSClient) :=
  if s.is_open then .ok (none, s)
  else
    match s.returncodeCache with
    | some rc => .ok (some rc, s)
    | none =>
      match dict_get s.channels ERROR_CHANNEL with
      | none => .error (.apiException 500 "Broken connection")
      | some errPayload =>
        let d := parse errPayload
        if d.status = "Success" then
          .ok (some 0, { s with returncodeCache := some 0 })
        else
          match d.causeMessages with
          | [] => .error .lookupError
          | m :: _ =>
            match pyInt m with
            | none => .error .valueError
            | some n => .ok (some n, { s with returncodeCache := some n })

/-- `close(code, message)` (ws_client.py lines 156-164): drops the connection. -/
def ExecWSClient.close (s : ExecWSClient) : ExecWSClient :=
  { s with connected := false }

/-- Frame as sent on the wire: one leading channel byte then the payload
(`chr(channel) + data`, ws_client.py line 59). -/
def frameOf (channel : Nat) (payload : String) : String :=
  String.mk (Char.ofNat channel :: payload.toList)

/-! ## Error taxonomy (`app/errors/errors.py`) -/

/-- Modelled from the spec: `app/errors/codes.py` is not present in the
sources (only `errors.py` imports it); the spec says each taxonomy kind is
"a stable code", so the codes are modelled as distinct string tokens. -/
def E_INTERNAL_ERROR : String := "E_INTERNAL_ERROR"

/-- Modelled from the spec: see `E_INTERNAL_ERROR`. -/
def E_CONFIG_INVALID : String := "E_CONFIG_INVALID"

/-- Modelled from the spec: see `E_INTERNAL_ERROR`. -/
def E_FUZZER_LAUNCH_ERROR : String := "E_FUZZER_LAUNCH_ERROR"

/-- Modelled from the spec: see `E_INTERNAL_ERROR`. -/
def E_FUZZER_ABORTED : String := "E_FUZZER_ABORTED"

/-- Modelled from the spec: see `E_INTERNAL_ERROR`. -/
def E_RAM_LIMIT_EXCEEDED : String := "E_RAM_LIMIT_EXCEEDED"

/-- Modelled from the spec: see `E_INTERNAL_ERROR`. -/
def E_TMPFS_LIMIT_EXCEEDED : String := "E_TMPFS_LIMIT_EXCEEDED"

/-- The concrete Python class of a raised `AgentError` value
(errors.py: every non-abstract subclass). -/
inductive AgentClass where
  | internalErrorCls
  | invalidConfigErrorCls
  | fuzzerLaunchErrorCls
  | fuzzerAbortedErrorCls
  | fileDownloadErrorCls
  | remoteFileDeleteErrorCls
  | remoteFileLookupErrorCls
  | fileUploadErrorCls
  | ramLimitExceededCls
  | tmpfsLimitExceededCls
  | timeLimitExceededCls
deriving DecidableEq

/-- `isinstance(e, InternalError)`: `InternalError` and its subclasses
(errors.py: the four file-transfer classes and `TimeLimitExceeded`
are declared as `class X(InternalError)`). -/
def AgentClass.isInternalError : AgentClass → Bool
  | .internalErrorCls => true
  | .fileDownloadErrorCls => true
  | .remoteFileDeleteErrorCls => true
  | .remoteFileLookupErrorCls => true
  | .fileUploadErrorCls => true
  | .timeLimitExceededCls => true
  | _ => false

/-- `isinstance(e, ResourceLimitExceeded)` (errors.py lines 84-99:
only `RamLimitExceeded` and `TmpfsLimitExceeded` subclass it). -/
def AgentClass.isResourceLimitExceeded : AgentClass → Bool
  | .ramLimitExceededCls => true
  | .tmpfsLimitExceededCls => true
  | _ => false

/-- An `AgentError` value: its class plus the `(code, message, details)`
arguments stored by `AgentError.__init__`. -/
structure AgentError where
  cls : AgentClass
  code : String
  message : String
  details : Option String
deriving DecidableEq

/-- `InternalError(details)` (errors.py lines 26-32). -/
def InternalError (details : Option String) : AgentError :=
  ⟨.internalErrorCls, E_INTERNAL_ERROR, "Internal error", details⟩

/-- `InvalidConfigError(details)` (errors.py lines 35-41). -/
def InvalidConfigError (details : String) : AgentError :=
  ⟨.invalidConfigErrorCls, E_CONFIG_INVALID, "Fuzzer configuration is invalid", some details⟩

/-- `FuzzerLaunchError(message, details)` (errors.py lines 44-50). -/
def FuzzerLaunchError (message : String) (details : Option String) : AgentError :=
  ⟨.fuzzerLaunchErrorCls, E_FUZZER_LAUNCH_ERROR, message, details⟩

/-- `FuzzerAbortedError()` (errors.py lines 53-58). -/
def FuzzerAbortedError : AgentError :=
  ⟨.fuzzerAbortedErrorCls, E_FUZZER_ABORTED, "Fuzzer aborted", none⟩

/-- `FileDownloadError(details)`: `class FileDownloadError(InternalError): pass`,
so construction runs `InternalError.__init__` (errors.py line 66). -/
def FileDownloadError (details : Option String) : AgentError :=
  ⟨.fileDownloadErrorCls, E_INTERNAL_ERROR, "Internal error", details⟩

/-- `RemoteFileDeleteError(details)` (errors.py line 69). -/
def RemoteFileDeleteError (details : Option String) : AgentError :=
  ⟨.remoteFileDeleteErrorCls, E_INTERNAL_ERROR, "Internal error", details⟩

/-- `RemoteFileLookupError(details)` (errors.py line 72). -/
def RemoteFileLookupError (details : Option String) : AgentError :=
  ⟨.remoteFileLookupErrorCls, E_INTERNAL_ERROR, "Internal error", details⟩

/-- `FileUploadError(details)` (errors.py line 75). -/
def FileUploadError (details : Option String) : AgentError :=
  ⟨.fileUploadErrorCls, E_INTERNAL_ERROR, "Internal error", details⟩

/-- `RamLimitExceeded()` (errors.py lines 87-92). -/
def RamLimitExceeded : AgentError :=
  ⟨.ramLimitExceededCls, E_RAM_LIMIT_EXCEEDED, "Ram limit exceeded", none⟩

/-- `TmpfsLimitExceeded()` (errors.py lines 94-99). -/
def TmpfsLimitExceeded : AgentError :=
  ⟨.tmpfsLimitExceededCls, E_TMPFS_LIMIT_EXCEEDED, "No space left on tmpfs", none⟩

/-- `TimeLimitExceeded(details)`: `class TimeLimitExceeded(InternalError): pass`
(errors.py line 101), so construction runs `InternalError.__init__` and the
value carries the internal error code and message. -/
def TimeLimitExceeded (details : Option String) : AgentError :=
  ⟨.timeLimitExceededCls, E_INTERNAL_ERROR, "Internal error", details⟩

/-! ## Container status and exec-command dispatch (`app/kubernetes/manager.py`) -/

/-- `V1ContainerState`: exactly one of `running`, `waiting`, `terminated`
is set; the terminated state carries `exit_code` and `reason`. -/
inductive V1ContainerState where
  | running
  | waiting
  | terminated (exit_code : Int) (reason : String)
deriving DecidableEq

/-- Disambiguation of an ambiguous runner exit via the fuzzer container state
(manager.py lines 172-200). -/
def exec_command_ambiguous (cont_state : V1ContainerState) : Except AgentError Int :=
  match cont_state with
  | .running => .error (InternalError none)
  | .waiting => .error (InternalError none)
  | .terminated monitor_exitcode reason =>
    if monitor_exitcode = 101 then .error TmpfsLimitExceeded
    else if monitor_exitcode = 102 then .error FuzzerAbortedError
    else if pyLower (pyStrip reason) = "oomkilled" then .error RamLimitExceeded
    else .error (InternalError none)

/-- Exit-code dispatch of `exec_command` (manager.py lines 164-220):
from the runner exit code, the container state an ambiguous branch would
fetch, and the accumulated runner stdout, to the result and the number of
container-status fetches performed. -/
def exec_command_dispatch (runner_exitcode : Int) (cont_state : V1ContainerState)
    (runner_output : String) : Except AgentError Int × Nat :=
  if runner_exitcode = 101 then
    (.error (TimeLimitExceeded none), 0)
  else if runner_exitcode ∈ ([102, 128 + 9, 128 + 15] : List Int) then
    (exec_command_ambiguous cont_state, 1)
  else if runner_exitcode ≠ 0 then
    (.error (InternalError none), 0)
  else
    match pyInt (pyStrip runner_output) with
    | some n => (.ok n, 0)
    | none => (.error (InternalError none), 0)

/-- One entry of `pod.status.container_statuses`. -/
structure V1ContainerStatus where
  name : String
  state : V1ContainerState
deriving DecidableEq

/-- `read_fuzzer_container` (manager.py lines 222-237): the first container
status whose name differs from the user container, else
`ApiException(status=404, reason="Fuzzer container not found")`. -/
def read_fuzzer_container (user_container : String) :
    List V1ContainerStatus → Except (Nat × String) V1ContainerStatus
  | [] => .error (404, "Fuzzer container not found")
  | c :: rest =>
    if c.name ≠ user_container then .ok c
    else read_fuzzer_container user_container rest

/-! ## Output schema (`app/output.py`) -/

/-- `Status`: terminal status of a run. -/
structure Status where
  code : String
  message : String
  details : Option String
deriving DecidableEq

/-- `CrashBase`: one discovered defect. -/
structure CrashBase where
  type : String
  input_id : Option String
  input : Option String
  output : String
  reproduced : Bool
deriving DecidableEq

/-- Both the inline input and the remote input id are populated
(the pair the spec says is never both populated). -/
def CrashBase.both_populated (c : CrashBase) : Bool :=
  c.input.isSome && c.input_id.isSome

/-! ## Crash offload (`app/entry.py` `_send_crash`, `app/transfer.py`) -/

/-- `BucketData.crash` object key (transfer.py lines 59-60). -/
def BucketData.crash_key (fuzzer_id fuzzer_rev input_id : String) : String :=
  fuzzer_id ++ "/" ++ fuzzer_rev ++ "/crashes/" ++ input_id ++ ".bin"

/-- `FileTransfer.upload_crash` (transfer.py lines 169-184): store the bytes
in the data bucket under the crash object key.  The bucket content is an
assoc list from object key to byte string. -/
def upload_crash (fuzzer_id fuzzer_rev : String) (storage : List (String × List Nat))
    (input_id : String) (input_bytes : List Nat) : List (String × List Nat) :=
  (BucketData.crash_key fuzzer_id fuzzer_rev input_id, input_bytes) :: storage

/-- `_send_crash` (entry.py lines 145-171), offload part: when the inline
input is longer than `crash_max_size`, decode it (`b64decode` is passed in),
upload the bytes under the fresh id `run_id + random_string(10)` (`rnd10`
stands for the drawn random suffix), then set `input_id` and clear `input`.
`none` models the `TypeError` of `len(crash.input)` when the input is absent. -/
def send_crash (crash_max_size : Nat) (b64decode : String → List Nat)
    (fuzzer_id fuzzer_rev run_id rnd10 : String)
    (storage : List (String × List Nat)) (crash : CrashBase) :
    Option (List (String × List Nat) × CrashBase) :=
  match crash.input with
  | none => none
  | some inp =>
    if inp.length > crash_max_size then
      let input_id := run_id ++ rnd10
      let input_bytes := b64decode inp
      let storage2 := upload_crash fuzzer_id fuzzer_rev storage input_id input_bytes
      some (storage2, { crash with input_id := some input_id, input := none })
    else
      some (storage, crash)

/-! ## Run orchestrator (`app/entry.py` `agent_entry_inner`) -/

/-- A Python exception escaping the body of the main `try` block
(readiness check, run, metrics, finish, crash sends): a domain error,
a cooperative cancellation, or anything else. -/
inductive RunException where
  | cancelledError
  | agentError (e : AgentError)
  | otherException
deriving DecidableEq

/-- Classification of an exception escaping `agent_mode.run()`
(entry.py lines 233-248): cancellation becomes `FuzzerAbortedError`,
non-domain exceptions become `InternalError`, domain errors are kept. -/
def classify_run_exc : RunException → AgentError
  | .cancelledError => FuzzerAbortedError
  | .agentError e => e
  | .otherException => InternalError none

/-- The status carried by an `_dump_err` report (entry.py line 123):
the error's own code, message and details. -/
def dump_err_status (e : AgentError) : Status :=
  ⟨e.code, e.message, e.details⟩

/-- Outcome of the initialization block of `agent_entry_inner`
(entry.py lines 179-193: settings load, message-queue init and start). -/
inductive InitResult where
  | okInit
  | cancelledError
  | failed
deriving DecidableEq

/-- Outcome of the main block (entry.py lines 196-283): either it completes,
emitting the success report with the run's status, or an exception escapes. -/
inductive MainResult where
  | okMain (st : Status)
  | exc (e : RunException)
deriving DecidableEq

/-- Result of one `agent_entry_inner` call: the process exit code, the
run-result reports emitted (in order, by the status they carry), and whether
the message-queue shutdown finalizer ran. -/
structure EntryResult where
  exit_code : Nat
  reports : List Status
  mq_shutdown : Bool
deriving DecidableEq

/-- Control-flow skeleton of `agent_entry_inner` (entry.py lines 174-302):
a cancelled initialization returns 0 and a failed one returns 1, both before
any report; a completed main block has emitted the one `_dump_ok` report and
returns 0; an escaping `AgentError` is reported by `_dump_err` and returns 2;
an escaping cancellation is swallowed and returns 0 without a report; any
other exception is replaced by `InternalError()`, reported, and returns 3;
the `finally` closes the message queue on every path of the main block. -/
def agent_entry_inner : InitResult → MainResult → EntryResult
  | .cancelledError, _ => ⟨0, [], false⟩
  | .failed, _ => ⟨1, [], false⟩
  | .okInit, .okMain st => ⟨0, [st], true⟩
  | .okInit, .exc .cancelledError => ⟨0, [], true⟩
  | .okInit, .exc (.agentError e) => ⟨2, [dump_err_status e], true⟩
  | .okInit, .exc .otherException => ⟨3, [dump_err_status (InternalError none)], true⟩

/-! ## Signal handling (`app/entry.py` `signal_handler`) -/

/-- Shared state of the installed signal handler: the `_catched` flag and the
number of `task.cancel()` calls made. -/
structure SignalCtx where
  catched : Bool
  cancels : Nat
deriving DecidableEq

/-- One delivery of a termination signal (entry.py lines 62-74): ignored when
`_catched` is already set, otherwise sets it and cancels the task once. -/
def signal_handler_step (s : SignalCtx) : SignalCtx :=
  if s.catched then s else ⟨true, s.cancels + 1⟩

/-- `n` successive signal deliveries. -/
def deliver_signals (s : SignalCtx) : Nat → SignalCtx
  | 0 => s
  | n + 1 => deliver_signals (signal_handler_step s) n

/-- The save-and-install loop of the wrapper (entry.py lines 85-87):
for each signal number in order, record `getsignal(signum)` and install the
new handler; returns the saved handlers and the new disposition table. -/
def install_loop {H : Type} (new : H) : List Nat → (Nat → H) → List H × (Nat → H)
  | [], disp => ([], disp)
  | sn :: rest, disp =>
    let saved := disp sn
    let disp2 := fun x => if x = sn then new else disp x
    let r := install_loop new rest disp2
    (saved :: r.1, r.2)

/-- The `finally` restore loop (entry.py lines 91-92): reinstall each saved
handler, pairing signal numbers with saved handlers by `zip`. -/
def restore_loop {H : Type} : List (Nat × H) → (Nat → H) → (Nat → H)
  | [], disp => disp
  | (sn, h) :: rest, disp => restore_loop rest (fun x => if x = sn then h else disp x)

/-- The `signal_handler` wrapper (entry.py lines 77-92): save the previous
dispositions, install the new handler for every signal number, run the
protected body, and restore the saved dispositions in the `finally` no matter
how the body exits; returns the body's outcome and the final dispositions. -/
def signal_handler_wrapper {H ε α : Type} (signums : List Nat) (new : H)
    (disp : Nat → H) (body : Except ε α) : Except ε α × (Nat → H) :=
  let r := install_loop new signums disp
  (body, restore_loop (signums.zip r.1) r.2)

/-! ## Helper lemmas -/

/-- Looking up a key other than the appended one is unchanged. -/
theorem dict_get_append_ne (l : List (Nat × String)) (k k' : Nat) (s : String)
    (h : k ≠ k') : dict_get (dict_append_str l k s) k' = dict_get l k' := by
  induction l with
  | nil => simp [dict_append_str, dict_get, h]
  | cons p rest ih =>
    obtain ⟨pk, pv⟩ := p
    by_cases hpk : pk = k
    · subst hpk
      simp [dict_append_str, dict_get, h]
    · simp [dict_append_str, dict_get, hpk, ih]

/-- Once the catched flag is set, further signal deliveries change nothing. -/
theorem deliver_signals_catched (n k : Nat) :
    deliver_signals ⟨true, k⟩ n = ⟨true, k⟩ := by
  induction n with
  | zero => rfl
  | succ m ih => simpa [deliver_signals, signal_handler_step] using ih

/-- The disposition table after the install loop: the new handler on the
installed signals, unchanged elsewhere. -/
theorem install_loop_snd {H : Type} (new : H) (l : List Nat) (disp : Nat → H)
    (x : Nat) : (install_loop new l disp).2 x = if x ∈ l then new else disp x := by
  induction l generalizing disp with
  | nil => simp [install_loop]
  | cons sn rest ih =>
    simp only [install_loop, ih, List.mem_cons]
    by_cases hr : x ∈ rest
    · simp [hr]
    · by_cases hs : x = sn <;> simp [hr, hs]

/-- With distinct signal numbers, the saved handlers are the original
dispositions of the signals, in order. -/
theorem install_loop_fst {H : Type} (new : H) (l : List Nat) (disp : Nat → H)
    (hnd : l.Nodup) : (install_loop new l disp).1 = l.map disp := by
  induction l generalizing disp with
  | nil => rfl
  | cons sn rest ih =>
    obtain ⟨hsn, hrest⟩ := List.nodup_cons.mp hnd
    simp only [install_loop, List.map_cons, List.cons.injEq, true_and]
    rw [ih _ hrest]
    exact List.map_congr_left fun y hy => by
      have : y ≠ sn := fun h => hsn (h ▸ hy)
      simp [this]

/-- Restoring the dispositions saved from `disp` yields `disp` on the listed
signals and the base table elsewhere. -/
theorem restore_loop_zip_map {H : Type} (l : List Nat) (disp base : Nat → H)
    (x : Nat) :
    restore_loop (l.zip (l.map disp)) base x = if x ∈ l then disp x else base x := by
  induction l generalizing base with
  | nil => simp [restore_loop]
  | cons sn rest ih =>
    show restore_loop (rest.zip (List.map disp rest))
      (fun y => if y = sn then disp sn else base y) x = _
    rw [ih]
    simp only [List.mem_cons]
    by_cases hr : x ∈ rest
    · simp [hr]
    · by_cases hs : x = sn <;> simp [hr, hs]

/-! ## Claims -/

/-- C9: the channel-named peek/read variants.  `read_stdout`, `peek_stderr`
and `read_stderr` access the channel their name says, but `peek_stdout`
reads the stderr channel's buffer, contradicting its own docstring: on a
session buffering "OUT" on channel 1 and "ERR" on channel 2, `peek_stdout`
returns "ERR". -/
theorem C9_peek_stdout_bug :
    ExecWSClient.peek_stdout ⟨true, [(1, "OUT"), (2, "ERR")], true, true, false, none⟩ none
      = some "ERR"
    ∧ ExecWSClient.peek_channel ⟨true, [(1, "OUT"), (2, "ERR")], true, true, false, none⟩
        STDOUT_CHANNEL none = some "OUT"
    ∧ (ExecWSClient.read_stdout ⟨true, [(1, "OUT"), (2, "ERR")], true, true, false, none⟩
        none).1 = some "OUT"
    ∧ ExecWSClient.peek_stderr ⟨true, [(1, "OUT"), (2, "ERR")], true, true, false, none⟩
        none = some "ERR"
    ∧ (ExecWSClient.read_stderr ⟨true, [(1, "OUT"), (2, "ERR")], true, true, false, none⟩
        none).1 = some "ERR" := by
  refine ⟨rfl, rfl, rfl, rfl, rfl⟩

/-- C10: `read_fuzzer_container` returns the first container status whose
name differs from the user container, and raises the 404 `ApiException`
when every status bears the user-container name; in particular a returned
status is never the user-named entry. -/
theorem C10_read_fuzzer_container (user : String) (l : List V1ContainerStatus) :
    ((∀ c ∈ l, c.name = user) →
      read_fuzzer_container user l = .error (404, "Fuzzer container not found"))
    ∧ (∀ r, read_fuzzer_container user l = .ok r →
        r.name ≠ user ∧ ∃ pre post, l = pre ++ r :: post ∧ ∀ p ∈ pre, p.name = user) := by
  induction l with
  | nil =>
    refine ⟨fun _ => rfl, fun r hr => ?_⟩
    simp [read_fuzzer_container] at hr
  | cons c rest ih =>
    constructor
    · intro hall
      have hc : c.name = user := hall c (List.mem_cons_self c rest)
      have : ¬(c.name ≠ user) := by simp [hc]
      simp only [read_fuzzer_container, if_neg this]
      exact ih.1 fun d hd => hall d (List.mem_cons_of_mem c hd)
    · intro r hr
      by_cases hc : c.name ≠ user
      · simp only [read_fuzzer_container, if_pos hc] at hr
        obtain rfl : c = r := by injection hr
        exact ⟨hc, [], rest, rfl, by simp⟩
      · simp only [read_fuzzer_container, if_neg hc] at hr
        obtain ⟨hne, pre, post, heq, hpre⟩ := ih.2 r hr
        refine ⟨hne, c :: pre, post, by simp [heq], ?_⟩
        intro p hp
        rcases List.mem_cons.mp hp with rfl | hp2
        · simpa using hc
        · exact hpre p hp2

/-- C10 witness: a pod whose only container status is the user container
yields the 404 error. -/
theorem C10_witness :
    read_fuzzer_container "user-cont" [⟨"user-cont", .running⟩]
      = .error (404, "Fuzzer container not found") := by
  refine (C10_read_fuzzer_container "user-cont" [⟨"user-cont", .running⟩]).1 ?_
  intro c hc
  rcases List.mem_singleton.mp hc with rfl
  rfl

/-- C7: the first received termination signal cancels the run task exactly
once and later signals are ignored while the flag is set; the wrapper
returns the protected body's outcome unchanged and, for distinct signal
numbers, restores every prior signal disposition on every exit path
(the restore runs in `finally`, whatever the body's outcome). -/
theorem C7_signal_handler :
    (∀ n, 1 ≤ n → deliver_signals ⟨false, 0⟩ n = ⟨true, 1⟩)
    ∧ (∀ (H ε α : Type) (signums : List Nat) (new : H) (disp : Nat → H)
        (body : Except ε α), signums.Nodup →
        (signal_handler_wrapper signums new disp body).1 = body
        ∧ ∀ x, (signal_handler_wrapper signums new disp body).2 x = disp x) := by
  constructor
  · intro n hn
    cases n with
    | zero => exact absurd hn (by decide)
    | succ m =>
      show deliver_signals (signal_handler_step ⟨false, 0⟩) m = ⟨true, 1⟩
      simpa [signal_handler_step] using deliver_signals_catched m 1
  · intro H ε α signums new disp body hnd
    refine ⟨rfl, fun x => ?_⟩
    show restore_loop (signums.zip (install_loop new signums disp).1)
      (install_loop new signums disp).2 x = disp x
    rw [install_loop_fst new signums disp hnd, restore_loop_zip_map,
      install_loop_snd]
    by_cases hx : x ∈ signums <;> simp [hx]

/-- C7 witness: two signals on [SIGINT, SIGTERM, SIGHUP] cancel once,
and the wrapper restores the identity disposition table at signal 2 after
a failing body. -/
theorem C7_witness :
    deliver_signals ⟨false, 0⟩ 2 = ⟨true, 1⟩
    ∧ (signal_handler_wrapper [2, 15, 1] 7 (fun x => x)
        (.error () : Except Unit Nat)).1 = .error ()
    ∧ (signal_handler_wrapper [2, 15, 1] 7 (fun x => x)
        (.error () : Except Unit Nat)).2 2 = 2 := by
  refine ⟨C7_signal_handler.1 2 (by decide), ?_, ?_⟩
  · exact (C7_signal_handler.2 Nat Unit Nat [2, 15, 1] 7 (fun x => x)
      (.error ()) (by decide)).1
  · exact (C7_signal_handler.2 Nat Unit Nat [2, 15, 1] 7 (fun x => x)
      (.error ()) (by decide)).2 2

/-- C8 counterexample: the claim says the time-limit error is one of the
`ResourceLimitExceeded` kinds with a stable code of its own, but
`TimeLimitExceeded` is declared as a subclass of `InternalError` and its
construction stores the internal error code, identical to
`InternalError`'s. -/
theorem C8_counterexample :
    AgentClass.isResourceLimitExceeded (TimeLimitExceeded none).cls = false
    ∧ (TimeLimitExceeded none).code = (InternalError none).code
    ∧ AgentClass.isInternalError (TimeLimitExceeded none).cls = true := by
  refine ⟨rfl, rfl, rfl⟩

/-- C8 (amended): the taxonomy consists of Internal, ConfigInvalid,
LaunchError, Aborted, the ResourceLimitExceeded family with Ram and Tmpfs
kinds, and the FileTransfer kinds, where Internal, ConfigInvalid, Launch,
Aborted, Ram and Tmpfs each carry a distinct stable code with a
human-readable message and optional details; the time-limit error and the
four FileTransfer kinds are `InternalError` subclasses carrying the internal
code; and a domain error raised inside the Executor reaches the
Orchestrator's reports with its code unchanged: the run-exception
classification keeps a domain error as is, and the error report carries the
error's own code. -/
theorem C8_taxonomy_amended :
    [(InternalError none).code, (InvalidConfigError "d").code,
      (FuzzerLaunchError "m" none).code, FuzzerAbortedError.code,
      RamLimitExceeded.code, TmpfsLimitExceeded.code].Nodup
    ∧ AgentClass.isResourceLimitExceeded RamLimitExceeded.cls = true
    ∧ AgentClass.isResourceLimitExceeded TmpfsLimitExceeded.cls = true
    ∧ RamLimitExceeded.code = E_RAM_LIMIT_EXCEEDED
    ∧ TmpfsLimitExceeded.code = E_TMPFS_LIMIT_EXCEEDED
    ∧ (TimeLimitExceeded none).code = E_INTERNAL_ERROR
    ∧ AgentClass.isInternalError (TimeLimitExceeded none).cls = true
    ∧ (∀ d, (FileDownloadError d).code = E_INTERNAL_ERROR
        ∧ (FileUploadError d).code = E_INTERNAL_ERROR
        ∧ (RemoteFileDeleteError d).code = E_INTERNAL_ERROR
        ∧ (RemoteFileLookupError d).code = E_INTERNAL_ERROR)
    ∧ (∀ e : AgentError, classify_run_exc (.agentError e) = e)
    ∧ (∀ e : AgentError, (dump_err_status e).code = e.code)
    ∧ (∀ e : AgentError,
        (agent_entry_inner .okInit (.exc (.agentError e))).reports
          = [dump_err_status e]) := by
  refine ⟨by decide, rfl, rfl, rfl, rfl, rfl, rfl,
    fun d => ⟨rfl, rfl, rfl, rfl⟩, fun e => rfl, fun e => rfl, fun e => rfl⟩

/-- C2 counterexample: in the cancellation-before-start scenario the claim
demands exactly one terminal run-result report, but `agent_entry_inner`
returns 0 from the initialization `except asyncio.CancelledError` block
without emitting any report. -/
theorem C2_counterexample :
    agent_entry_inner .cancelledError (.okMain ⟨"code", "msg", none⟩)
      = ⟨0, [], false⟩
    ∧ (agent_entry_inner .cancelledError
        (.okMain ⟨"code", "msg", none⟩)).reports.length = 0 := by
  refine ⟨rfl, rfl⟩

/-- C2 (amended): the orchestrator's exit code is 0 on normal completion and
on cancellation during initialization, 1 on an initialization failure before
any report is attempted, 2 when a domain (`AgentError`) error is reported,
and 3 when an unclassified error is reported; exactly one terminal
run-result report is emitted in the success, domain-error and
unclassified-error scenarios, while the cancellation-before-start scenario
(and a cancellation escaping the main block) emits none. -/
theorem C2_exit_codes_amended :
    (∀ m, agent_entry_inner .cancelledError m = ⟨0, [], false⟩)
    ∧ (∀ m, agent_entry_inner .failed m = ⟨1, [], false⟩)
    ∧ (∀ st, agent_entry_inner .okInit (.okMain st) = ⟨0, [st], true⟩)
    ∧ (∀ e, agent_entry_inner .okInit (.exc (.agentError e))
        = ⟨2, [dump_err_status e], true⟩)
    ∧ agent_entry_inner .okInit (.exc .otherException)
        = ⟨3, [dump_err_status (InternalError none)], true⟩
    ∧ agent_entry_inner .okInit (.exc .cancelledError) = ⟨0, [], true⟩
    ∧ (∀ st, (agent_entry_inner .okInit (.okMain st)).reports.length = 1)
    ∧ (∀ e, (agent_entry_inner .okInit
        (.exc (.agentError e))).reports.length = 1)
    ∧ (agent_entry_inner .okInit (.exc .otherException)).reports.length = 1 := by
  refine ⟨fun m => ?_, fun m => ?_, fun st => rfl, fun e => rfl, rfl, rfl,
    fun st => rfl, fun e => rfl, rfl⟩
  · cases m with
    | okMain st => rfl
    | exc e => cases e <;> rfl
  · cases m with
    | okMain st => rfl
    | exc e => cases e <;> rfl

/-- C1 counterexample: on runner exit 137 with the container terminated with
exit code 1 and reason " oomkilled", the code raises `RamLimitExceeded`
although that reason does not equal "oomkilled" case-insensitively (it only
does after the source's `strip()`), where the claim's "any other terminated
state" case demands `InternalError`. -/
theorem C1_counterexample :
    exec_command_dispatch 137 (.terminated 1 " oomkilled") ""
      = (.error RamLimitExceeded, 1)
    ∧ pyLower " oomkilled" ≠ "oomkilled"
    ∧ RamLimitExceeded ≠ InternalError none := by
  refine ⟨rfl, by decide, by decide⟩

/-- C1 (amended): runner exit 101 raises `TimeLimitExceeded` with no
container-status fetch; a runner exit in 102, 137, 143 performs exactly one
container-status fetch and dispatches on the fetched state: not terminated
gives `InternalError`; terminated with monitor exit 101 gives
`TmpfsLimitExceeded`; with monitor exit 102 gives `FuzzerAbortedError`; with
another exit code whose reason, after trimming surrounding whitespace,
equals "oomkilled" case-insensitively gives `RamLimitExceeded`; any other
terminated state gives `InternalError`; and any other nonzero runner exit
gives `InternalError` without a fetch. -/
theorem C1_exec_dispatch_amended :
    (∀ st out, exec_command_dispatch 101 st out
      = (.error (TimeLimitExceeded none), 0))
    ∧ (∀ (rc : Int) st out, rc = 102 ∨ rc = 137 ∨ rc = 143 →
        exec_command_dispatch rc st out = (exec_command_ambiguous st, 1))
    ∧ exec_command_ambiguous .running = .error (InternalError none)
    ∧ exec_command_ambiguous .waiting = .error (InternalError none)
    ∧ (∀ r, exec_command_ambiguous (.terminated 101 r)
        = .error TmpfsLimitExceeded)
    ∧ (∀ r, exec_command_ambiguous (.terminated 102 r)
        = .error FuzzerAbortedError)
    ∧ (∀ (ec : Int) r, ec ≠ 101 → ec ≠ 102 →
        pyLower (pyStrip r) = "oomkilled" →
        exec_command_ambiguous (.terminated ec r) = .error RamLimitExceeded)
    ∧ (∀ (ec : Int) r, ec ≠ 101 → ec ≠ 102 →
        pyLower (pyStrip r) ≠ "oomkilled" →
        exec_command_ambiguous (.terminated ec r) = .error (InternalError none))
    ∧ (∀ (rc : Int) st out, rc ≠ 101 → ¬(rc = 102 ∨ rc = 137 ∨ rc = 143) →
        rc ≠ 0 → exec_command_dispatch rc st out
          = (.error (InternalError none), 0)) := by
  refine ⟨fun st out => rfl, ?_, rfl, rfl, fun r => rfl, fun r => rfl,
    ?_, ?_, ?_⟩
  · intro rc st out h
    rcases h with rfl | rfl | rfl <;> rfl
  · intro ec r h1 h2 h3
    simp only [exec_command_ambiguous]
    rw [if_neg h1, if_neg h2, if_pos h3]
  · intro ec r h1 h2 h3
    simp only [exec_command_ambiguous]
    rw [if_neg h1, if_neg h2, if_neg h3]
  · intro rc st out h1 h2 h3
    have hm : rc ∉ ([102, 128 + 9, 128 + 15] : List Int) := by
      intro hmem
      exact h2 (by simpa using hmem)
    unfold exec_command_dispatch
    rw [if_neg h1, if_neg hm, if_pos h3]

/-- C1 witness: runner exit 137 with the container terminated with exit 5
and reason "OOMKilled" yields `RamLimitExceeded` after one fetch. -/
theorem C1_witness :
    exec_command_dispatch 137 (.terminated 5 "OOMKilled") ""
      = (.error RamLimitExceeded, 1) := by
  have h2 := C1_exec_dispatch_amended.2.1 137 (.terminated 5 "OOMKilled") ""
    (Or.inr (Or.inl rfl))
  have hram := C1_exec_dispatch_amended.2.2.2.2.2.2.1 5 "OOMKilled"
    (by decide) (by decide) (by decide)
  rw [h2, hram]

/-- A successfully resolved return code leaves a closed session whose cache
holds that code. -/
theorem returncode_resolved {parse : String → V1StatusDoc} {s : ExecWSClient}
    {rc : Int} {s' : ExecWSClient}
    (h : ExecWSClient.returncode parse s = .ok (some rc, s')) :
    s'.connected = false ∧ s'.returncodeCache = some rc := by
  unfold ExecWSClient.returncode at h
  split at h
  · simp at h
  · rename_i hopen
    simp only [ExecWSClient.is_open, Bool.not_eq_true] at hopen
    split at h
    · rename_i rc0 hcache
      simp only [Except.ok.injEq, Prod.mk.injEq, Option.some.injEq] at h
      obtain ⟨h1, h2⟩ := h
      subst h1
      subst h2
      exact ⟨hopen, hcache⟩
    · rename_i hcache
      split at h
      · cases h
      · dsimp only [] at h
        split at h
        · simp only [Except.ok.injEq, Prod.mk.injEq, Option.some.injEq] at h
          obtain ⟨h1, h2⟩ := h
          subst h1
          subst h2
          exact ⟨hopen, rfl⟩
        · split at h
          · cases h
          · split at h
            · cases h
            · simp only [Except.ok.injEq, Prod.mk.injEq, Option.some.injEq] at h
              obtain ⟨h1, h2⟩ := h
              subst h1
              subst h2
              exact ⟨hopen, rfl⟩

/-- C3: `returncode` is `none` while the session is open; after close, a
"Success" status in the error-channel payload resolves to 0, a failure
status resolves to the integer parsed from the first cause message, a close
with no error-channel payload raises `ApiException(500)` immediately, and a
resolved value is memoized: reading again returns the same value and state. -/
theorem C3_returncode (parse : String → V1StatusDoc) (s : ExecWSClient) :
    (s.connected = true → ExecWSClient.returncode parse s = .ok (none, s))
    ∧ (s.connected = false → s.returncodeCache = none →
        dict_get s.channels ERROR_CHANNEL = none →
        ExecWSClient.returncode parse s
          = .error (.apiException 500 "Broken connection"))
    ∧ (∀ p, s.connected = false → s.returncodeCache = none →
        dict_get s.channels ERROR_CHANNEL = some p →
        (parse p).status = "Success" →
        ExecWSClient.returncode parse s
          = .ok (some 0, { s with returncodeCache := some 0 }))
    ∧ (∀ p m ms n, s.connected = false → s.returncodeCache = none →
        dict_get s.channels ERROR_CHANNEL = some p →
        (parse p).status ≠ "Success" → (parse p).causeMessages = m :: ms →
        pyInt m = some n →
        ExecWSClient.returncode parse s
          = .ok (some n, { s with returncodeCache := some n }))
    ∧ (∀ rc s', ExecWSClient.returncode parse s = .ok (some rc, s') →
        ExecWSClient.returncode parse s' = .ok (some rc, s')) := by
  refine ⟨?_, ?_, ?_, ?_, ?_⟩
  · intro h
    simp [ExecWSClient.returncode, ExecWSClient.is_open, h]
  · intro h1 h2 h3
    simp [ExecWSClient.returncode, ExecWSClient.is_open, h1, h2, h3]
  · intro p h1 h2 h3 h4
    simp only [ExecWSClient.returncode, ExecWSClient.is_open, h1, h2, h3,
      Bool.false_eq_true, if_false]
    rw [if_pos h4]
  · intro p m ms n h1 h2 h3 h4 h5 h6
    simp only [ExecWSClient.returncode, ExecWSClient.is_open, h1, h2, h3,
      Bool.false_eq_true, if_false]
    rw [if_neg h4]
    simp only [h5, h6]
  · intro rc s' h
    obtain ⟨hconn, hcache⟩ := returncode_resolved h
    simp [ExecWSClient.returncode, ExecWSClient.is_open, hconn, hcache]

/-- C3 witness: a closed session holding a "Success" document on the error
channel resolves to 0, and reading again returns 0 from the cache. -/
theorem C3_witness :
    ExecWSClient.returncode (fun _ => ⟨"Success", []⟩)
        ⟨false, [(3, "doc")], true, true, false, none⟩
      = .ok (some 0, ⟨false, [(3, "doc")], true, true, false, some 0⟩)
    ∧ ExecWSClient.returncode (fun _ => ⟨"Success", []⟩)
        ⟨false, [(3, "doc")], true, true, false, some 0⟩
      = .ok (some 0, ⟨false, [(3, "doc")], true, true, false, some 0⟩) := by
  have h1 := (C3_returncode (fun _ => ⟨"Success", []⟩)
    ⟨false, [(3, "doc")], true, true, false, none⟩).2.2.1 "doc" rfl rfl rfl rfl
  have h2 := (C3_returncode (fun _ => ⟨"Success", []⟩)
    ⟨false, [(3, "doc")], true, true, false, none⟩).2.2.2.2 0
    ⟨false, [(3, "doc")], true, true, false, some 0⟩ h1
  exact ⟨h1, h2⟩

/-- A frame of at most two characters is discarded by `update`
(the source's `len(data) > 2` guard). -/
theorem update_short_frame (s : ExecWSClient) (t : Int) (p : String)
    (h1 : s.connected = true) (ht : 0 < t) (hl : p.length ≤ 2) :
    s.update t false (.frame p) = s := by
  have ht2 : ¬ t ≤ 0 := not_le.mpr ht
  have hl2 : ¬ p.length > 2 := not_lt.mpr hl
  simp [ExecWSClient.update, ExecWSClient.is_open, h1, ht2, hl2]

/-- A frame longer than two characters reaches the channel filter of
`update`, as one conditional on the decoded channel id. -/
theorem update_long_frame (s : ExecWSClient) (t : Int) (p : String)
    (h1 : s.connected = true) (ht : 0 < t) (hl : 2 < p.length) :
    s.update t false (.frame p)
      = if (headOrd p != STDOUT_CHANNEL && headOrd p != STDERR_CHANNEL)
            || (headOrd p == STDOUT_CHANNEL && s.stdout)
            || (headOrd p == STDERR_CHANNEL && s.stderr) then
          { s with
            channels := dict_append_str s.channels
                (if headOrd p == STDERR_CHANNEL && s.combine_output
                  then STDOUT_CHANNEL else headOrd p) (p.drop 1) }
        else s := by
  have ht2 : ¬ t ≤ 0 := not_le.mpr ht
  simp [ExecWSClient.update, ExecWSClient.is_open, h1, ht2, hl]

/-- C4 counterexample: after the interleaved frames (1,"AB"), (2,"X"),
(1,"CD") the stdout buffer holds "ABCD", but the (2,"X") frame was dropped
by the `len(data) > 2` guard (its payload is one byte), so the session holds
no stderr buffer and a read of channel 2 returns the default instead of the
"X" the claim demands. -/
theorem C4_counterexample :
    ((((ExecWSClient.init true true false).update 5 false
        (.frame (frameOf 1 "AB"))).update 5 false
        (.frame (frameOf 2 "X"))).update 5 false
        (.frame (frameOf 1 "CD"))).channels = [(1, "ABCD")]
    ∧ (((((ExecWSClient.init true true false).update 5 false
        (.frame (frameOf 1 "AB"))).update 5 false
        (.frame (frameOf 2 "X"))).update 5 false
        (.frame (frameOf 1 "CD"))).read_channel STDERR_CHANNEL none).1
      = none := by
  refine ⟨rfl, rfl⟩

/-- C4 (amended): each `update` call consumes at most one frame; a frame of
at most two characters (payload shorter than two bytes) is discarded; a
longer frame has its payload appended to the buffer of the channel named by
its leading byte (on a session with both streams enabled and no combining);
hence after (1,"AB"), (2,"X"), (1,"CD") a read of channel 1 returns "ABCD"
while a read of channel 2 returns the default, the (2,"X") frame having a
one-byte payload. -/
theorem C4_update_amended :
    (∀ (s : ExecWSClient) (t : Int) (p : String), s.connected = true →
        0 < t → p.length ≤ 2 → s.update t false (.frame p) = s)
    ∧ (∀ (s : ExecWSClient) (t : Int) (p : String), s.connected = true →
        s.stdout = true → s.stderr = true → s.combine_output = false →
        0 < t → 2 < p.length →
        s.update t false (.frame p)
          = { s with
              channels := dict_append_str s.channels (headOrd p) (p.drop 1) })
    ∧ ((((((ExecWSClient.init true true false).update 5 false
        (.frame (frameOf 1 "AB"))).update 5 false
        (.frame (frameOf 2 "X"))).update 5 false
        (.frame (frameOf 1 "CD"))).read_channel STDOUT_CHANNEL none).1
      = some "ABCD")
    ∧ (∀ d, ((((ExecWSClient.init true true false).update 5 false
        (.frame (frameOf 1 "AB"))).update 5 false
        (.frame (frameOf 2 "X"))).update 5 false
        (.frame (frameOf 1 "CD"))).read_channel STDERR_CHANNEL d
      = (d, (((ExecWSClient.init true true false).update 5 false
        (.frame (frameOf 1 "AB"))).update 5 false
        (.frame (frameOf 2 "X"))).update 5 false
        (.frame (frameOf 1 "CD")))) := by
  refine ⟨update_short_frame, ?_, rfl, fun d => rfl⟩
  intro s t p h1 hso hse hco ht hl
  rw [update_long_frame s t p h1 ht hl, hso, hse, hco]
  have hcond : ((headOrd p != STDOUT_CHANNEL && headOrd p != STDERR_CHANNEL)
      || (headOrd p == STDOUT_CHANNEL && true)
      || (headOrd p == STDERR_CHANNEL && true)) = true := by
    by_cases hc1 : headOrd p = STDOUT_CHANNEL
    · simp [hc1]
    · by_cases hc2 : headOrd p = STDERR_CHANNEL
      · simp [hc2]
      · simp [hc1, hc2]
  rw [if_pos hcond]
  simp

/-- C4 witness: a two-character frame on channel 2 leaves the session
unchanged, and a three-character frame on channel 1 appends "AB" to the
stdout buffer. -/
theorem C4_witness :
    ExecWSClient.update ⟨true, [], true, true, false, none⟩ 5 false
        (.frame (frameOf 2 "X")) = ⟨true, [], true, true, false, none⟩
    ∧ ExecWSClient.update ⟨true, [], true, true, false, none⟩ 5 false
        (.frame (frameOf 1 "AB")) = ⟨true, [(1, "AB")], true, true, false, none⟩ := by
  have h1 := C4_update_amended.1 ⟨true, [], true, true, false, none⟩ 5
    (frameOf 2 "X") rfl (by decide) (by decide)
  have h2 := C4_update_amended.2.1 ⟨true, [], true, true, false, none⟩ 5
    (frameOf 1 "AB") rfl rfl rfl rfl (by decide) (by decide)
  refine ⟨h1, ?_⟩
  rw [h2]
  rfl

/-- C5 counterexample: a session constructed with stdout disabled (and no
combine-output) has both streams re-enabled by the constructor's
`not stdout or not stderr and combine_output` fixup, so a frame addressed to
the "disabled" stdout channel is appended rather than dropped. -/
theorem C5_counterexample :
    (ExecWSClient.init false true false).stdout = true
    ∧ (ExecWSClient.init false true false).stderr = true
    ∧ ((ExecWSClient.init false true false).update 5 false
        (.frame (frameOf 1 "AB"))).channels = [(1, "AB")] := by
  refine ⟨rfl, rfl, rfl⟩

/-- C5 (amended): a session constructed with stdout disabled has both
streams re-enabled at construction (likewise one with stderr disabled and
combine-output requested), so only a session constructed with stderr
disabled and no combine-output keeps a stream disabled, and on it every
frame addressed to channel 2 is dropped; on a session with combine-output
in effect, a channel-2 frame with payload of at least two bytes is appended
to channel 1's buffer and channel 2's buffer is unchanged. -/
theorem C5_filtering_amended :
    (∀ se co, (ExecWSClient.init false se co).stdout = true
        ∧ (ExecWSClient.init false se co).stderr = true)
    ∧ (ExecWSClient.init true false false).stderr = false
    ∧ ((ExecWSClient.init true false true).stdout = true
        ∧ (ExecWSClient.init true false true).stderr = true)
    ∧ (∀ (s : ExecWSClient) (t : Int) (p : String), s.connected = true →
        s.stderr = false → 0 < t → headOrd p = STDERR_CHANNEL →
        s.update t false (.frame p) = s)
    ∧ (∀ (s : ExecWSClient) (t : Int) (p : String), s.connected = true →
        s.stderr = true → s.combine_output = true → 0 < t → 2 < p.length →
        headOrd p = STDERR_CHANNEL →
        s.update t false (.frame p)
          = { s with
              channels := dict_append_str s.channels STDOUT_CHANNEL (p.drop 1) }
        ∧ dict_get (s.update t false (.frame p)).channels STDERR_CHANNEL
          = dict_get s.channels STDERR_CHANNEL) := by
  refine ⟨fun se co => ⟨rfl, rfl⟩, rfl, ⟨rfl, rfl⟩, ?_, ?_⟩
  · intro s t p h1 h2 ht h4
    by_cases hl : 2 < p.length
    · rw [update_long_frame s t p h1 ht hl, h4, h2]
      simp [STDOUT_CHANNEL, STDERR_CHANNEL]
    · exact update_short_frame s t p h1 ht (not_lt.mp hl)
  · intro s t p h1 h2 h3 ht hl h6
    have heq : s.update t false (.frame p)
        = { s with
            channels := dict_append_str s.channels STDOUT_CHANNEL (p.drop 1) } := by
      rw [update_long_frame s t p h1 ht hl, h6, h2, h3]
      simp [STDOUT_CHANNEL, STDERR_CHANNEL]
    refine ⟨heq, ?_⟩
    rw [heq]
    exact dict_get_append_ne s.channels STDOUT_CHANNEL STDERR_CHANNEL
      (p.drop 1) (by decide)

/-- C5 witness: a stderr-disabled session drops a channel-2 frame, and a
combining session appends the channel-2 payload "EE" to channel 1's buffer,
leaving channel 2 empty. -/
theorem C5_witness :
    ExecWSClient.update ⟨true, [], true, false, false, none⟩ 5 false
        (.frame (frameOf 2 "EE")) = ⟨true, [], true, false, false, none⟩
    ∧ ExecWSClient.update ⟨true, [], true, true, true, none⟩ 5 false
        (.frame (frameOf 2 "EE")) = ⟨true, [(1, "EE")], true, true, true, none⟩
    ∧ dict_get (ExecWSClient.update ⟨true, [], true, true, true, none⟩ 5 false
        (.frame (frameOf 2 "EE"))).channels STDERR_CHANNEL = none := by
  have h1 := C5_filtering_amended.2.2.2.1 ⟨true, [], true, false, false, none⟩
    5 (frameOf 2 "EE") rfl rfl (by decide) (by decide)
  have h2 := C5_filtering_amended.2.2.2.2 ⟨true, [], true, true, true, none⟩
    5 (frameOf 2 "EE") rfl rfl rfl (by decide) (by decide) (by decide)
  refine ⟨h1, ?_, ?_⟩
  · rw [h2.1]
    rfl
  · rw [h2.2]
    rfl

/-- C6: sending a crash whose inline input exceeds the byte threshold
decodes the payload, uploads it to content storage under the freshly
generated identifier `run_id ++ rnd10`, clears the inline input and records
that identifier — the stored bytes are retrievable under the crash object
key of that identifier — and after every completed send the crash's `input`
and `input_id` are never both populated, provided they were not both
populated before. -/
theorem C6_send_crash (maxSize : Nat) (dec : String → List Nat)
    (fid frev rid rnd : String) (st : List (String × List Nat))
    (crash : CrashBase) (inp : String) :
    (crash.input = some inp → inp.length > maxSize →
      send_crash maxSize dec fid frev rid rnd st crash
        = some ((BucketData.crash_key fid frev (rid ++ rnd), dec inp) :: st,
            { crash with input_id := some (rid ++ rnd), input := none })
      ∧ ∀ st2 c2, send_crash maxSize dec fid frev rid rnd st crash
          = some (st2, c2) →
          dict_get st2 (BucketData.crash_key fid frev (rid ++ rnd))
            = some (dec inp)
          ∧ c2.input = none ∧ c2.input_id = some (rid ++ rnd)
          ∧ c2.both_populated = false)
    ∧ (∀ st2 c2, send_crash maxSize dec fid frev rid rnd st crash
        = some (st2, c2) → crash.both_populated = false →
        c2.both_populated = false) := by
  constructor
  · intro hin hlen
    have heq : send_crash maxSize dec fid frev rid rnd st crash
        = some ((BucketData.crash_key fid frev (rid ++ rnd), dec inp) :: st,
            { crash with input_id := some (rid ++ rnd), input := none }) := by
      simp only [send_crash, hin, upload_crash]
      rw [if_pos hlen]
    refine ⟨heq, ?_⟩
    intro st2 c2 h2
    rw [heq] at h2
    simp only [Option.some.injEq, Prod.mk.injEq] at h2
    obtain ⟨hst, hc⟩ := h2
    subst hst
    subst hc
    refine ⟨?_, rfl, rfl, ?_⟩
    · simp [dict_get]
    · simp [CrashBase.both_populated]
  · intro st2 c2 h2 hnb
    unfold send_crash at h2
    split at h2
    · cases h2
    · rename_i inp2 hin2
      split at h2
      · simp only [Option.some.injEq, Prod.mk.injEq] at h2
        obtain ⟨hst, hc⟩ := h2
        subst hc
        simp [CrashBase.both_populated]
      · simp only [Option.some.injEq, Prod.mk.injEq] at h2
        obtain ⟨hst, hc⟩ := h2
        subst hc
        exact hnb

/-- C6 witness: with threshold 2, a crash carrying the four-character inline
input "AAAA" is offloaded: the decoded bytes are stored under the crash key
of the fresh id, the inline input is cleared and the id recorded. -/
theorem C6_witness :
    send_crash 2 (fun s => s.toList.map Char.toNat) "fid" "rev" "run" "xyz"
        [] ⟨"crash", none, some "AAAA", "out", true⟩
      = some ([("fid/rev/crashes/runxyz.bin", [65, 65, 65, 65])],
          ⟨"crash", some "runxyz", none, "out", true⟩)
    ∧ CrashBase.both_populated ⟨"crash", some "runxyz", none, "out", true⟩
      = false := by
  have h := (C6_send_crash 2 (fun s => s.toList.map Char.toNat) "fid" "rev"
    "run" "xyz" [] ⟨"crash", none, some "AAAA", "out", true⟩ "AAAA").1
    rfl (by decide)
  refine ⟨?_, rfl⟩
  rw [h.1]
  rfl
